import Mathlib

/-!
A shallow embedding of the asynchronous frame-recording pipeline of
PlanetaryImager, src/saveimages.cpp: the bounded single-producer /
single-consumer frame queue, the writer worker that drains it, the
session metadata record (RecordingInformation) and the controller
facade (SaveImages).

Modelling conventions.  Machine integers are modelled as Nat / Int
(the C++ values involved are non-negative sizes and counters, or
plain ints).  The IEEE double used for the mean-fps value is modelled
exactly: a rational for finite values, together with the infinity and
NaN results of division by zero.  Stateful C++ code is modelled by
explicit state passing.  The interleaving of the producer side
(WriterThreadWorker::handle, invoked per arriving frame) with the
consumer loop (iterations of WriterThreadWorker::run) is modelled by
a trace of actions processed sequentially; this sequential trace
embodies exactly the single-producer / single-consumer discipline the
boost::lockfree::spsc_queue requires.  Wall-clock time is external:
the elapsed whole seconds between the start and end timestamps
(QDateTime::secsTo) enters the model as a parameter.  The fps-counter
tick events and the recording-started event of the run prologue are
not modelled; no claim below concerns them.
-/

/-- A `cv::Mat` frame, reduced to its size data: `total()` is
`rows * cols` and `elemSize()` is the per-element byte count. -/
structure Frame where
  rows : Nat
  cols : Nat
  elemSize : Nat
deriving DecidableEq

/-- `imageData.total() * imageData.elemSize()` (saveimages.cpp line 185). -/
def Frame.byteSize (f : Frame) : Nat := f.rows * f.cols * f.elemSize

/-- `boost::lockfree::spsc_queue<cv::Mat>` constructed with a run-time
capacity: `spsc_queue(n)` holds at most `n` elements (the internal
ring allocates `n + 1` slots and keeps one empty, so the usable
capacity is exactly the constructor argument). -/
structure FrameQueue where
  capacity : Nat
  contents : List Frame
deriving DecidableEq

/-- `push` appends and succeeds iff the queue is not full; it never
blocks (it either succeeds or fails immediately). -/
def FrameQueue.push (q : FrameQueue) (f : Frame) : FrameQueue × Bool :=
  if q.contents.length < q.capacity then
    ({ capacity := q.capacity, contents := q.contents ++ [f] }, true)
  else (q, false)

/-- `pop` yields the oldest element if any; it never blocks. -/
def FrameQueue.pop (q : FrameQueue) : Option Frame × FrameQueue :=
  match q.contents with
  | [] => (none, q)
  | f :: rest => (some f, { capacity := q.capacity, contents := rest })

/-- The producer-side state of `WriterThreadWorker`: the lazily
created queue (line 163: a null shared_ptr until the first frame) and
the dropped-frame counter (line 167, initialised to 0). -/
structure WorkerState where
  framesQueue : Option FrameQueue
  dropped_frames : Nat
deriving DecidableEq

/-- A freshly constructed `WriterThreadWorker`. -/
def WorkerState.init : WorkerState :=
  { framesQueue := none, dropped_frames := 0 }

/-- The frames currently sitting in the worker's queue (empty if the
queue has not been created yet). -/
def WorkerState.queueContents (w : WorkerState) : List Frame :=
  match w.framesQueue with
  | none => []
  | some q => q.contents

/-- The Qt signals of `SaveImages` that the claims below observe. -/
inductive Event
  | droppedFrames (n : Nat)
  | savedFrames (n : Nat)
  | finished
deriving DecidableEq

/-- `WriterThreadWorker::handle` (lines 183-195): on the first call
the queue is created with capacity `max_memory / imageDataSize`
(integer division, line 187); then the frame is pushed; on rejection
the dropped counter is pre-incremented and a `droppedFrames` event
with the cumulative count is emitted (line 193). -/
def WriterThreadWorker.handle (max_memory : Nat) (s : WorkerState) (f : Frame) :
    WorkerState × List Event :=
  let q : FrameQueue := match s.framesQueue with
    | none => { capacity := max_memory / f.byteSize, contents := [] }
    | some q => q
  let r := q.push f
  if r.2 then
    ({ framesQueue := some r.1, dropped_frames := s.dropped_frames }, [])
  else
    ({ framesQueue := some r.1, dropped_frames := s.dropped_frames + 1 },
     [Event.droppedFrames (s.dropped_frames + 1)])

/-- Iterated `WriterThreadWorker::handle` over a list of arriving
frames, collecting the emitted events in order. -/
def WriterThreadWorker.handleAll (max_memory : Nat) :
    WorkerState → List Frame → WorkerState × List Event
  | s, [] => (s, [])
  | s, f :: rest =>
    let r1 := WriterThreadWorker.handle max_memory s f
    let r2 := WriterThreadWorker.handleAll max_memory r1.1 rest
    (r2.1, r1.2 ++ r2.2)

/-- The joint state of one recording session: the worker's producer
state, the shared `is_recording` flag, and the consumer loop's local
variables of `WriterThreadWorker::run` (lines 206-208): the written
frame counter, the width/height sentinels initialised to -1, plus the
ordered list of frames handed to the file writer. -/
structure SessionState where
  worker : WorkerState
  is_recording : Bool
  frames : Nat
  width : Int
  height : Int
  written : List Frame
deriving DecidableEq

/-- The session state right after `SaveImages::startRecording` set
`is_recording = true` and the worker entered its loop. -/
def SessionState.start : SessionState :=
  { worker := WorkerState.init, is_recording := true, frames := 0,
    width := -1, height := -1, written := [] }

/-- One observable action of a session trace: a frame arriving at
`SaveImages::handle` (dispatched to the worker's `handle`), one
iteration of the consumer loop of `run`, or `SaveImages::endRecording`. -/
inductive Act
  | submit (f : Frame)
  | consume
  | endRec
deriving DecidableEq

/-- One step of the session.
`submit f`: `SaveImages::handle` (lines 236-241) returns at once if
`is_recording` is false, else runs `WriterThreadWorker::handle`.
`consume`: one iteration of the `while(is_recording && frames < max_frames)`
loop of `run` (lines 209-223): pop; on a frame, hand it to the file
writer, emit `savedFrames(++frames)`, and record width/height from the
first written frame; on an empty (or not yet created) queue, sleep.
`endRec`: `SaveImages::endRecording` (lines 266-269) clears the flag. -/
def SaveImages.step (m maxFrames : Nat) (s : SessionState) : Act → SessionState × List Event
  | Act.submit f =>
    if s.is_recording = true then
      let r := WriterThreadWorker.handle m s.worker f
      ({ s with worker := r.1 }, r.2)
    else (s, [])
  | Act.consume =>
    if s.is_recording = true ∧ s.frames < maxFrames then
      match s.worker.framesQueue with
      | none => (s, [])
      | some q =>
        match q.contents with
        | [] => (s, [])
        | f :: rest =>
          ({ worker := { framesQueue := some { capacity := q.capacity, contents := rest },
                         dropped_frames := s.worker.dropped_frames },
             is_recording := s.is_recording,
             frames := s.frames + 1,
             written := s.written ++ [f],
             width := if s.width = -1 ∨ s.height = -1 then (f.cols : Int) else s.width,
             height := if s.width = -1 ∨ s.height = -1 then (f.rows : Int) else s.height },
           [Event.savedFrames (s.frames + 1)])
    else (s, [])
  | Act.endRec => ({ s with is_recording := false }, [])

/-- A session trace: the actions processed sequentially from a state,
collecting all emitted events in order. -/
def SaveImages.runActs (m maxFrames : Nat) : SessionState → List Act → SessionState × List Event
  | s, [] => (s, [])
  | s, a :: rest =>
    let r1 := SaveImages.step m maxFrames s a
    let r2 := SaveImages.runActs m maxFrames r1.1 rest
    (r2.1, r1.2 ++ r2.2)

/-- The exact value of an IEEE double that is the result of a
division: a rational for a nonzero divisor, else the infinity / NaN
special values IEEE division by zero produces. -/
inductive DoubleVal
  | val (q : ℚ)
  | posInf
  | negInf
  | nan
deriving DecidableEq

/-- IEEE double division on exact operand values. -/
def DoubleVal.ddiv (a b : ℚ) : DoubleVal :=
  if b ≠ 0 then DoubleVal.val (a / b)
  else if 0 < a then DoubleVal.posInf
  else if a < 0 then DoubleVal.negInf
  else DoubleVal.nan

/-- The fields `RecordingInformation::set_ended` (lines 88-97) stores
into the properties map: total-frames, width, height, and mean-fps
computed as `static_cast<double>(total_frames) / static_cast<double>(elapsed)`
(line 96) where `elapsed = started.secsTo(ended)` is the whole number
of seconds between the start and end timestamps. -/
structure EndedRecord where
  total_frames : Int
  width : Int
  height : Int
  mean_fps : DoubleVal
deriving DecidableEq

/-- `RecordingInformation::set_ended`, with the externally measured
`elapsed` whole seconds passed as a parameter. -/
def RecordingInformation.set_ended (total_frames width height elapsed : Int) : EndedRecord :=
  { total_frames := total_frames, width := width, height := height,
    mean_fps := DoubleVal.ddiv (total_frames : ℚ) (elapsed : ℚ) }

/-- The outcome of a whole session: the final state, the full event
trace, and the `set_ended` record if the consumer loop exited. -/
structure SessionResult where
  final : SessionState
  events : List Event
  ended : Option EndedRecord
deriving DecidableEq

/-- A whole session: the action trace is processed; if afterwards the
loop condition `is_recording && frames < max_frames` (line 209) fails,
the epilogue of `run` executes: line 224 clears the flag, line 226
calls `set_ended(frames, width, height)`, line 229 emits `finished`,
and line 231 quits the recording thread, whose `QThread::finished`
signal re-emits `SaveImages::finished` through the connection made at
line 255 of `startRecording` — hence two `finished` events.  The loop
condition is absorbing (`frames` never decreases and nothing resets
the flag), so deferring the epilogue to the end of the trace matches
a legal scheduling of the code. -/
def SaveImages.runSession (m maxFrames : Nat) (elapsed : Int) (acts : List Act) :
    SessionResult :=
  let r := SaveImages.runActs m maxFrames SessionState.start acts
  if r.1.is_recording = false ∨ maxFrames ≤ r.1.frames then
    { final := { r.1 with is_recording := false },
      events := r.2 ++ [Event.finished, Event.finished],
      ended := some (RecordingInformation.set_ended (r.1.frames : Int) r.1.width r.1.height elapsed) }
  else
    { final := r.1, events := r.2, ended := none }

/-- The frames carried by the `submit` actions of a trace, in order. -/
def Act.submitted : List Act → List Frame
  | [] => []
  | Act.submit f :: rest => f :: Act.submitted rest
  | Act.consume :: rest => Act.submitted rest
  | Act.endRec :: rest => Act.submitted rest

/-- The cumulative counts carried by the `savedFrames` events of an
event trace, in order. -/
def Event.savedCounts : List Event → List Nat
  | [] => []
  | Event.savedFrames n :: rest => n :: Event.savedCounts rest
  | Event.droppedFrames _ :: rest => Event.savedCounts rest
  | Event.finished :: rest => Event.savedCounts rest

/-- The cumulative counts carried by the `droppedFrames` events of an
event trace, in order. -/
def Event.droppedCounts : List Event → List Nat
  | [] => []
  | Event.droppedFrames n :: rest => n :: Event.droppedCounts rest
  | Event.savedFrames _ :: rest => Event.droppedCounts rest
  | Event.finished :: rest => Event.droppedCounts rest

/-- Whether the next `push` of frame `f` would be accepted by the
worker's queue (counting the lazy creation a fresh queue would get). -/
def SaveImages.queueHasRoom (m : Nat) (w : WorkerState) (f : Frame) : Bool :=
  match w.framesQueue with
  | none => decide (0 < m / f.byteSize)
  | some q => decide (q.contents.length < q.capacity)

/-- The consumer drains at least as fast as frames arrive along this
trace: every `submit` that reaches the worker finds room in the
queue, so no push is ever rejected. -/
def SaveImages.drainOk (m maxFrames : Nat) : SessionState → List Act → Bool
  | _, [] => true
  | s, a :: rest =>
    (match a with
     | Act.submit f => !s.is_recording || SaveImages.queueHasRoom m s.worker f
     | Act.consume => true
     | Act.endRec => true) &&
    SaveImages.drainOk m maxFrames (SaveImages.step m maxFrames s a).1 rest

/-- The configuration values `SaveImages` reads (configuration.h is a
collaborator; only these accessors are used by saveimages.cpp). -/
structure Configuration where
  savefile : String
  save_format : String
  save_info_file : Bool
  recording_frames_limit : Nat
  max_memory_usage : Nat
deriving DecidableEq

/-- The constructor arguments `startRecording` passes to the new
`WriterThreadWorker` (lines 250-253): the frame ceiling — with
`numeric_limits<long long>::max()` as the unbounded sentinel when the
configured limit is 0 — and the memory budget, plus whether a
RecordingInformation was created. -/
structure WorkerInit where
  max_frames : Nat
  max_memory : Nat
  has_recording_information : Bool
deriving DecidableEq

/-- The state of the `SaveImages` facade (`SaveImages::Private`,
lines 117-127): the worker pointer (null until a session starts), the
`is_recording` flag, whether the recording thread was started, and
how many thread-finished connections to `SaveImages::finished` have
accumulated (line 255 adds one per started session and never
disconnects). -/
structure ControllerState where
  configuration : Configuration
  worker : Option WorkerInit
  is_recording : Bool
  thread_started : Bool
  finished_connections : Nat
deriving DecidableEq

/-- A `SaveImages` facade as constructed: no worker, not recording. -/
def ControllerState.init (c : Configuration) : ControllerState :=
  { configuration := c, worker := none, is_recording := false,
    thread_started := false, finished_connections := 0 }

/-- `SaveImages::Private::writerFactory` (lines 143-150): a null
factory if the destination is empty, else the factory registered for
the configured format.  `factories` models the external
`FileWriter::factories()` registry: whether a non-null factory is
registered for a format name. -/
def SaveImages.writerFactory (factories : String → Bool) (c : Configuration) : Bool :=
  if c.savefile = "" then false else factories c.save_format

/-- `SaveImages::startRecording` (lines 243-262): if the writer
factory is null, nothing at all happens; otherwise a worker is
constructed (with the frame ceiling and memory budget from the
configuration and, if `save_info_file()`, a RecordingInformation),
another thread-finished connection is added, the flag is set and the
recording thread is started.  No event is emitted directly. -/
def SaveImages.startRecording (factories : String → Bool) (s : ControllerState) :
    ControllerState × List Event :=
  if SaveImages.writerFactory factories s.configuration then
    ({ configuration := s.configuration,
       worker := some
         { max_frames :=
             if s.configuration.recording_frames_limit = 0 then 2 ^ 63 - 1
             else s.configuration.recording_frames_limit,
           max_memory := s.configuration.max_memory_usage,
           has_recording_information := s.configuration.save_info_file },
       is_recording := true,
       thread_started := true,
       finished_connections := s.finished_connections + 1 }, [])
  else (s, [])

/-- `RecordingInformation` (lines 40-49): the properties map captured
at construction (modelled as an opaque association list; the pieces
individual claims examine are modelled separately below) and the
sidecar filename, empty until `set_base_filename` is called. -/
structure RecordingInformation where
  properties : List (String × String)
  filename : String
deriving DecidableEq

/-- The `RecordingInformation` constructor (lines 51-86) leaves the
filename at the default-constructed empty QString. -/
def RecordingInformation.create (properties : List (String × String)) : RecordingInformation :=
  { properties := properties, filename := "" }

/-- `RecordingInformation::set_base_filename` (lines 99-102). -/
def RecordingInformation.set_base_filename (info : RecordingInformation) (filename : String) :
    RecordingInformation :=
  { properties := info.properties, filename := filename ++ ".txt" }

/-- `RecordingInformation::~RecordingInformation` (lines 104-112):
returns — writing nothing — if the filename is empty or the file
cannot be opened for writing (`canOpen` models the externally decided
`QFile::open` outcome); otherwise the properties are serialized and
written.  The return type has no error alternative, mirroring the
bare early `return;` of the code: an open failure is silently
swallowed. -/
def RecordingInformation.destructor (info : RecordingInformation) (canOpen : Bool) :
    Option (List (String × String)) :=
  if info.filename = "" ∨ canOpen = false then none
  else some info.properties

/-- `Imager::Control::Type` (the three enum values used at
lines 62-66). -/
inductive ControlType
  | number
  | combo
  | bool
deriving DecidableEq

/-- One camera control as the constructor reads it: name, current
value, type, the duration flag and unit (`duration_unit.count()` is
the unit's scale in seconds), and the choice list. -/
structure Control where
  name : String
  value : ℚ
  type : ControlType
  is_duration : Bool
  duration_unit : ℚ
  choices : List (String × ℚ)
deriving DecidableEq

/-- The per-control map the constructor builds (lines 60-83),
modelled as one field per possible key. -/
structure SettingValue where
  value : ℚ
  type : String
  choices : Option (List (String × ℚ))
  value_seconds : Option ℚ
  value_milliseconds : Option ℚ
  value_microseconds : Option ℚ
deriving DecidableEq

/-- The snapshot of one control taken by the `RecordingInformation`
constructor (lines 59-84): value and type name; for combo controls
the choices map; for duration-flavoured number controls the type is
overwritten with "duration" and the raw value is re-expressed via
`setting.value * setting.duration_unit.count() * unit.second` with
units seconds = 1, milliseconds = 1000, microseconds = 1000000
(lines 74-82). -/
def RecordingInformation.snapshotControl (setting : Control) : SettingValue :=
  let typeName : ControlType → String := fun t =>
    match t with
    | ControlType.number => "number"
    | ControlType.combo => "combo"
    | ControlType.bool => "bool"
  let base : SettingValue :=
    { value := setting.value, type := typeName setting.type, choices := none,
      value_seconds := none, value_milliseconds := none, value_microseconds := none }
  let withChoices :=
    if setting.type = ControlType.combo then
      { base with choices := some setting.choices }
    else base
  if setting.type = ControlType.number ∧ setting.is_duration = true then
    { withChoices with
      type := "duration",
      value_seconds := some (setting.value * setting.duration_unit * 1),
      value_milliseconds := some (setting.value * setting.duration_unit * 1000),
      value_microseconds := some (setting.value * setting.duration_unit * 1000000) }
  else withChoices

theorem FrameQueue.push_capacity (q : FrameQueue) (f : Frame) :
    (q.push f).1.capacity = q.capacity := by
  unfold FrameQueue.push
  by_cases h : q.contents.length < q.capacity <;> simp [h]

theorem WriterThreadWorker.handle_framesQueue_some (m : Nat) (s : WorkerState) (f : Frame)
    (q : FrameQueue) (hq : s.framesQueue = some q) :
    (WriterThreadWorker.handle m s f).1.framesQueue = some (q.push f).1 := by
  simp only [WriterThreadWorker.handle, hq]
  by_cases h : (q.push f).2 <;> simp [h]

theorem WriterThreadWorker.handle_framesQueue_none (m : Nat) (s : WorkerState) (f : Frame)
    (hq : s.framesQueue = none) :
    (WriterThreadWorker.handle m s f).1.framesQueue =
      some ((FrameQueue.mk (m / f.byteSize) []).push f).1 := by
  simp only [WriterThreadWorker.handle, hq]
  by_cases h : ((FrameQueue.mk (m / f.byteSize) []).push f).2 <;> simp [h]

/-- Claim C1 (counterexample): with a memory budget of 1 byte and a
first frame of 2 bytes, the queue is created with capacity
`1 / 2 = 0`, so the claimed lower bound of 1 on the capacity fails. -/
theorem queue_capacity_not_at_least_one :
    ¬ (∀ q : FrameQueue,
        (WriterThreadWorker.handle 1 WorkerState.init (Frame.mk 1 1 2)).1.framesQueue = some q →
        1 ≤ q.capacity) := by
  intro h
  exact absurd (h { capacity := 0, contents := [] } (by decide)) (by decide)

/-- Claim C1 (amended): the queue does not exist before the first
frame is submitted; the first `handle` call creates it, exactly once,
with capacity `floor(max_memory / first_frame_byte_size)` (the first
frame entering it iff that capacity is nonzero); and no later step of
the session — further submissions, consumer-loop iterations or
stopping — ever changes the capacity.  The claimed lower bound of 1
does not hold: when the budget is smaller than one frame's byte size
the capacity is 0 (see the counterexample) and every push is
rejected. -/
theorem queue_capacity_lazy_once_floor (m : Nat) (f : Frame) :
    WorkerState.init.framesQueue = none ∧
    (∀ s : WorkerState, s.framesQueue = none →
      (WriterThreadWorker.handle m s f).1.framesQueue =
        some { capacity := m / f.byteSize,
               contents := if 0 < m / f.byteSize then [f] else [] }) ∧
    (∀ (maxFrames : Nat) (s : SessionState) (a : Act) (q : FrameQueue),
      s.worker.framesQueue = some q →
      ∃ q2, (SaveImages.step m maxFrames s a).1.worker.framesQueue = some q2 ∧
        q2.capacity = q.capacity) := by
  refine ⟨rfl, ?_, ?_⟩
  · intro s hs
    rw [WriterThreadWorker.handle_framesQueue_none m s f hs]
    by_cases h : 0 < m / f.byteSize <;> simp [FrameQueue.push, h]
  · intro maxFrames s a q hq
    cases a with
    | submit f2 =>
      by_cases hr : s.is_recording = true
      · refine ⟨((q.push f2).1), ?_, FrameQueue.push_capacity q f2⟩
        simp only [SaveImages.step, hr, if_true]
        exact WriterThreadWorker.handle_framesQueue_some m s.worker f2 q hq
      · exact ⟨q, by simp [SaveImages.step, hr, hq], rfl⟩
    | consume =>
      by_cases hc : s.is_recording = true ∧ s.frames < maxFrames
      · rcases hcn : q.contents with _ | ⟨f2, rest⟩
        · exact ⟨q, by simp [SaveImages.step, hc, hq, hcn], rfl⟩
        · exact ⟨{ capacity := q.capacity, contents := rest },
            by simp [SaveImages.step, hc, hq, hcn], rfl⟩
      · exact ⟨q, by simp [SaveImages.step, hc, hq], rfl⟩
    | endRec => exact ⟨q, by simp [SaveImages.step, hq], rfl⟩

/-- Witness for the amended C1: budget 8, 2-byte frames; creation
yields capacity 4 and a later submission step keeps capacity 4. -/
theorem queue_capacity_lazy_once_floor_witness :
    ((WriterThreadWorker.handle 8 WorkerState.init (Frame.mk 1 1 2)).1.framesQueue =
      some { capacity := 8 / (Frame.mk 1 1 2).byteSize,
             contents := if 0 < 8 / (Frame.mk 1 1 2).byteSize then [Frame.mk 1 1 2] else [] }) ∧
    (∃ q2, (SaveImages.step 8 5
        { worker := { framesQueue := some { capacity := 4, contents := [] }, dropped_frames := 0 },
          is_recording := true, frames := 0, width := -1, height := -1, written := [] }
        (Act.submit (Frame.mk 1 1 2))).1.worker.framesQueue = some q2 ∧
      q2.capacity = 4) :=
  ⟨(queue_capacity_lazy_once_floor 8 (Frame.mk 1 1 2)).2.1 WorkerState.init rfl,
   (queue_capacity_lazy_once_floor 8 (Frame.mk 1 1 2)).2.2 5 _ (Act.submit (Frame.mk 1 1 2))
     { capacity := 4, contents := [] } rfl⟩

theorem WriterThreadWorker.handleAll_closed_form (m : Nat) :
    ∀ (fs : List Frame) (C : Nat) (c : List Frame) (d : Nat),
    WriterThreadWorker.handleAll m
        { framesQueue := some { capacity := C, contents := c }, dropped_frames := d } fs =
      ({ framesQueue := some { capacity := C, contents := c ++ fs.take (C - c.length) },
         dropped_frames := d + (fs.length - (C - c.length)) },
       (List.range' (d + 1) (fs.length - (C - c.length))).map Event.droppedFrames) := by
  intro fs
  induction fs with
  | nil =>
    intro C c d
    simp [WriterThreadWorker.handleAll]
  | cons f rest ih =>
    intro C c d
    by_cases h : c.length < C
    · have hstep : WriterThreadWorker.handle m
          { framesQueue := some { capacity := C, contents := c }, dropped_frames := d } f =
          ({ framesQueue := some { capacity := C, contents := c ++ [f] }, dropped_frames := d },
           []) := by
        simp [WriterThreadWorker.handle, FrameQueue.push, h]
      simp only [WriterThreadWorker.handleAll, hstep]
      rw [ih C (c ++ [f]) d]
      simp only [List.length_append, List.length_cons, List.length_nil, List.nil_append]
      obtain ⟨k, hk⟩ : ∃ k, C - c.length = k + 1 := ⟨C - (c.length + 1), by omega⟩
      have hk2 : C - (c.length + (0 + 1)) = k := by omega
      have hk3 : C - (c.length + 1) = k := by omega
      congr 1
      · congr 2
        · rw [hk, List.take_succ_cons]
          simp only [hk2, hk3, List.append_assoc, List.singleton_append]
        · simp only [hk, hk2, hk3]
          omega
      · simp only [hk, hk2, hk3, List.length_cons]
        have : rest.length - k = rest.length + 1 - (k + 1) := by omega
        rw [this]
    · have h0 : C - c.length = 0 := by omega
      have hstep : WriterThreadWorker.handle m
          { framesQueue := some { capacity := C, contents := c }, dropped_frames := d } f =
          ({ framesQueue := some { capacity := C, contents := c }, dropped_frames := d + 1 },
           [Event.droppedFrames (d + 1)]) := by
        simp [WriterThreadWorker.handle, FrameQueue.push, h]
      simp only [WriterThreadWorker.handleAll, hstep]
      rw [ih C c (d + 1)]
      simp only [h0, Nat.sub_zero, List.take_zero, List.append_nil, List.length_cons]
      have harith : d + 1 + rest.length = d + (rest.length + 1) := by omega
      rw [List.range'_succ, harith]
      simp

theorem WriterThreadWorker.handleAll_lazy_create (m : Nat) (f : Frame) (fs : List Frame) :
    WriterThreadWorker.handleAll m WorkerState.init (f :: fs) =
      WriterThreadWorker.handleAll m
        { framesQueue := some { capacity := m / f.byteSize, contents := [] },
          dropped_frames := 0 } (f :: fs) := by
  simp only [WriterThreadWorker.handleAll]
  have hsame : WriterThreadWorker.handle m WorkerState.init f =
      WriterThreadWorker.handle m
        { framesQueue := some { capacity := m / f.byteSize, contents := [] },
          dropped_frames := 0 } f := by
    simp [WriterThreadWorker.handle, WorkerState.init]
  rw [hsame]

/-- Claim C2: when C = floor(m / first_frame_byte_size) < N frames
are submitted and the consumer never pops, exactly the first C frames
are accepted (they are the final queue contents, in order) and each
of the remaining N - C submissions is rejected without blocking and
without an error path: the dropped counter ends at N - C and the
emitted droppedFrames events carry exactly the cumulative counts
1, 2, ..., N - C in order — strictly increasing by 1 per drop. -/
theorem full_queue_drops_exact (m : Nat) (f : Frame) (rest : List Frame)
    (hsz : 0 < f.byteSize) (hov : m / f.byteSize < (f :: rest).length) :
    (WriterThreadWorker.handleAll m WorkerState.init (f :: rest)).1.framesQueue =
      some { capacity := m / f.byteSize,
             contents := (f :: rest).take (m / f.byteSize) } ∧
    (WriterThreadWorker.handleAll m WorkerState.init (f :: rest)).1.dropped_frames =
      (f :: rest).length - m / f.byteSize ∧
    (WriterThreadWorker.handleAll m WorkerState.init (f :: rest)).2 =
      (List.range' 1 ((f :: rest).length - m / f.byteSize)).map Event.droppedFrames := by
  rw [WriterThreadWorker.handleAll_lazy_create, WriterThreadWorker.handleAll_closed_form]
  simp

/-- Witness for C2: a 2-byte budget and four 1-byte frames give
capacity 2, two accepted frames, and drop events with counts 1, 2. -/
theorem full_queue_drops_exact_witness :
    ((WriterThreadWorker.handleAll 2 WorkerState.init
        (Frame.mk 1 1 1 :: [Frame.mk 1 1 1, Frame.mk 1 1 1, Frame.mk 1 1 1])).1.framesQueue =
      some { capacity := 2 / (Frame.mk 1 1 1).byteSize,
             contents := (Frame.mk 1 1 1 :: [Frame.mk 1 1 1, Frame.mk 1 1 1,
               Frame.mk 1 1 1]).take (2 / (Frame.mk 1 1 1).byteSize) }) ∧
    ((WriterThreadWorker.handleAll 2 WorkerState.init
        (Frame.mk 1 1 1 :: [Frame.mk 1 1 1, Frame.mk 1 1 1, Frame.mk 1 1 1])).1.dropped_frames =
      (Frame.mk 1 1 1 :: [Frame.mk 1 1 1, Frame.mk 1 1 1, Frame.mk 1 1 1]).length -
        2 / (Frame.mk 1 1 1).byteSize) ∧
    ((WriterThreadWorker.handleAll 2 WorkerState.init
        (Frame.mk 1 1 1 :: [Frame.mk 1 1 1, Frame.mk 1 1 1, Frame.mk 1 1 1])).2 =
      (List.range' 1 ((Frame.mk 1 1 1 :: [Frame.mk 1 1 1, Frame.mk 1 1 1,
        Frame.mk 1 1 1]).length - 2 / (Frame.mk 1 1 1).byteSize)).map Event.droppedFrames) :=
  full_queue_drops_exact 2 (Frame.mk 1 1 1)
    [Frame.mk 1 1 1, Frame.mk 1 1 1, Frame.mk 1 1 1] (by decide) (by decide)

theorem SaveImages.step_stays_stopped (m maxFrames : Nat) (s : SessionState) (a : Act)
    (h : s.is_recording = false) :
    (SaveImages.step m maxFrames s a).1.is_recording = false := by
  cases a with
  | submit f => simp [SaveImages.step, h]
  | consume => simp [SaveImages.step, h]
  | endRec => simp [SaveImages.step]

theorem SaveImages.runActs_stays_stopped (m maxFrames : Nat) :
    ∀ (acts : List Act) (s : SessionState), s.is_recording = false →
    (SaveImages.runActs m maxFrames s acts).1.is_recording = false := by
  intro acts
  induction acts with
  | nil => intro s h; simpa [SaveImages.runActs] using h
  | cons a rest ih =>
    intro s h
    simp only [SaveImages.runActs]
    exact ih _ (SaveImages.step_stays_stopped m maxFrames s a h)

theorem SaveImages.runActs_endRec_stops (m maxFrames : Nat) :
    ∀ (acts : List Act) (s : SessionState), Act.endRec ∈ acts →
    (SaveImages.runActs m maxFrames s acts).1.is_recording = false := by
  intro acts
  induction acts with
  | nil => intro s h; cases h
  | cons a rest ih =>
    intro s h
    simp only [SaveImages.runActs]
    rcases List.mem_cons.mp h with h1 | h2
    · subst h1
      exact SaveImages.runActs_stays_stopped m maxFrames rest _ (by simp [SaveImages.step])
    · exact ih _ h2

theorem WriterThreadWorker.handle_events (m : Nat) (w : WorkerState) (f : Frame) :
    (WriterThreadWorker.handle m w f).2 = [] ∨
    (WriterThreadWorker.handle m w f).2 = [Event.droppedFrames (w.dropped_frames + 1)] := by
  unfold WriterThreadWorker.handle
  dsimp only
  split <;> simp

theorem SaveImages.step_no_finished (m maxFrames : Nat) (s : SessionState) (a : Act) :
    Event.finished ∉ (SaveImages.step m maxFrames s a).2 := by
  cases a with
  | submit f =>
    by_cases h : s.is_recording = true
    · rcases WriterThreadWorker.handle_events m s.worker f with he | he <;>
        simp [SaveImages.step, h, he]
    · simp [SaveImages.step, h]
  | consume =>
    by_cases h : s.is_recording = true ∧ s.frames < maxFrames
    · rcases hq : s.worker.framesQueue with _ | q
      · simp [SaveImages.step, h, hq]
      · rcases hc : q.contents with _ | ⟨f, rest⟩ <;> simp [SaveImages.step, h, hq, hc]
    · simp [SaveImages.step, h]
  | endRec => simp [SaveImages.step]

theorem SaveImages.runActs_no_finished (m maxFrames : Nat) :
    ∀ (acts : List Act) (s : SessionState),
    Event.finished ∉ (SaveImages.runActs m maxFrames s acts).2 := by
  intro acts
  induction acts with
  | nil => intro s; simp [SaveImages.runActs]
  | cons a rest ih =>
    intro s
    simp only [SaveImages.runActs, List.mem_append]
    push_neg
    exact ⟨SaveImages.step_no_finished m maxFrames s a, ih _⟩

/-- Claim C4 (counterexample): a session that ends by reaching a frame
ceiling of 1 — one frame submitted and written — emits the `finished`
event twice (line 229's direct emission plus the thread-finished
connection of line 255), not exactly once. -/
theorem finished_emitted_twice :
    (SaveImages.runSession 10 1 5 [Act.submit (Frame.mk 1 1 1), Act.consume]).ended.isSome
      = true ∧
    (SaveImages.runSession 10 1 5 [Act.submit (Frame.mk 1 1 1), Act.consume]).events.count
      Event.finished ≠ 1 := by
  decide

/-- Claim C4 (amended): every session that ends — whether through an
explicit endRecording in the trace or automatically because the
written-frame count reached the ceiling (no endRecording call needed;
the flag is cleared on loop exit) — produces its `set_ended` record,
ends with the active flag false, and eventually emits exactly two
`finished` events, not one: the worker's run epilogue emits the
first, and quitting the recording thread fires the
`QThread::finished` connection made in `startRecording`, which
re-emits `SaveImages::finished`. -/
theorem session_end_two_finished (m maxFrames : Nat) (elapsed : Int) (acts : List Act)
    (hend : Act.endRec ∈ acts ∨
      maxFrames ≤ (SaveImages.runActs m maxFrames SessionState.start acts).1.frames) :
    (SaveImages.runSession m maxFrames elapsed acts).ended.isSome = true ∧
    (SaveImages.runSession m maxFrames elapsed acts).events.count Event.finished = 2 ∧
    (SaveImages.runSession m maxFrames elapsed acts).final.is_recording = false := by
  have hcond : (SaveImages.runActs m maxFrames SessionState.start acts).1.is_recording = false ∨
      maxFrames ≤ (SaveImages.runActs m maxFrames SessionState.start acts).1.frames := by
    rcases hend with h | h
    · exact Or.inl (SaveImages.runActs_endRec_stops m maxFrames acts SessionState.start h)
    · exact Or.inr h
  simp only [SaveImages.runSession]
  rw [if_pos hcond]
  refine ⟨rfl, ?_, rfl⟩
  rw [List.count_append]
  have h0 : (SaveImages.runActs m maxFrames SessionState.start acts).2.count Event.finished = 0 :=
    List.count_eq_zero.mpr (SaveImages.runActs_no_finished m maxFrames acts SessionState.start)
  rw [h0]
  decide

/-- Witness for the amended C4: a session stopped by endRecording. -/
theorem session_end_two_finished_witness :
    (SaveImages.runSession 10 5 7 [Act.endRec]).ended.isSome = true ∧
    (SaveImages.runSession 10 5 7 [Act.endRec]).events.count Event.finished = 2 ∧
    (SaveImages.runSession 10 5 7 [Act.endRec]).final.is_recording = false :=
  session_end_two_finished 10 5 7 [Act.endRec] (Or.inl (by decide))

theorem SaveImages.step_inv (m maxFrames : Nat) (s : SessionState) (a : Act)
    (h1 : s.frames = s.written.length)
    (h2 : s.frames = 0 → s.width = -1 ∧ s.height = -1) :
    (SaveImages.step m maxFrames s a).1.frames =
      (SaveImages.step m maxFrames s a).1.written.length ∧
    ((SaveImages.step m maxFrames s a).1.frames = 0 →
      (SaveImages.step m maxFrames s a).1.width = -1 ∧
      (SaveImages.step m maxFrames s a).1.height = -1) := by
  cases a with
  | submit f =>
    by_cases h : s.is_recording = true
    · exact ⟨by simpa [SaveImages.step, h] using h1, by simpa [SaveImages.step, h] using h2⟩
    · exact ⟨by simpa [SaveImages.step, h] using h1, by simpa [SaveImages.step, h] using h2⟩
  | consume =>
    by_cases h : s.is_recording = true ∧ s.frames < maxFrames
    · rcases hq : s.worker.framesQueue with _ | q
      · exact ⟨by simpa [SaveImages.step, h, hq] using h1,
          by simpa [SaveImages.step, h, hq] using h2⟩
      · rcases hc : q.contents with _ | ⟨f, rest⟩
        · exact ⟨by simpa [SaveImages.step, h, hq, hc] using h1,
            by simpa [SaveImages.step, h, hq, hc] using h2⟩
        · constructor
          · simp only [SaveImages.step, h, hq, hc]
            simp [h1]
          · simp [SaveImages.step, h, hq, hc]
    · exact ⟨by simpa [SaveImages.step, h] using h1, by simpa [SaveImages.step, h] using h2⟩
  | endRec =>
    exact ⟨by simpa [SaveImages.step] using h1, by simpa [SaveImages.step] using h2⟩

theorem SaveImages.runActs_inv (m maxFrames : Nat) :
    ∀ (acts : List Act) (s : SessionState),
    s.frames = s.written.length →
    (s.frames = 0 → s.width = -1 ∧ s.height = -1) →
    ((SaveImages.runActs m maxFrames s acts).1.frames =
       (SaveImages.runActs m maxFrames s acts).1.written.length ∧
     ((SaveImages.runActs m maxFrames s acts).1.frames = 0 →
       (SaveImages.runActs m maxFrames s acts).1.width = -1 ∧
       (SaveImages.runActs m maxFrames s acts).1.height = -1)) := by
  intro acts
  induction acts with
  | nil => intro s h1 h2; simpa [SaveImages.runActs] using ⟨h1, h2⟩
  | cons a rest ih =>
    intro s h1 h2
    simp only [SaveImages.runActs]
    obtain ⟨g1, g2⟩ := SaveImages.step_inv m maxFrames s a h1 h2
    exact ih _ g1 g2

/-- Claim C10: a session finalized with total-frames 0 — no frame was
written before the consumer loop exited — records the sentinel
initial values width = -1 and height = -1, because width and height
are only ever assigned from the first written frame. -/
theorem zero_frames_sentinel_dims (m maxFrames : Nat) (elapsed : Int) (acts : List Act)
    (er : EndedRecord)
    (hend : (SaveImages.runSession m maxFrames elapsed acts).ended = some er)
    (h0 : er.total_frames = 0) :
    er.width = -1 ∧ er.height = -1 := by
  have hinv := SaveImages.runActs_inv m maxFrames acts SessionState.start rfl
    (fun _ => ⟨rfl, rfl⟩)
  simp only [SaveImages.runSession] at hend
  by_cases hc : (SaveImages.runActs m maxFrames SessionState.start acts).1.is_recording = false ∨
      maxFrames ≤ (SaveImages.runActs m maxFrames SessionState.start acts).1.frames
  · rw [if_pos hc] at hend
    simp only [Option.some.injEq] at hend
    subst hend
    simp only [RecordingInformation.set_ended] at h0
    have hfr : (SaveImages.runActs m maxFrames SessionState.start acts).1.frames = 0 := by
      exact_mod_cast h0
    exact hinv.2 hfr
  · rw [if_neg hc] at hend
    simp at hend

/-- Witness for C10 at a session that is ended with no submissions. -/
theorem zero_frames_sentinel_dims_witness :
    (RecordingInformation.set_ended 0 (-1) (-1) 3).width = -1 ∧
    (RecordingInformation.set_ended 0 (-1) (-1) 3).height = -1 :=
  zero_frames_sentinel_dims 10 5 3 [Act.endRec]
    (RecordingInformation.set_ended 0 (-1) (-1) 3) rfl rfl

/-- Claim C5: for every finalized session with a positive whole
number of elapsed seconds, the recorded mean-fps is exactly
total_frames divided by the elapsed whole seconds (the double
division of line 96, on exact values; `elapsed = started.secsTo(ended)`
is the integer number of seconds between the session's start and end
timestamps). -/
theorem mean_fps_eq_frames_div_elapsed (total_frames width height elapsed : Int)
    (h : 0 < elapsed) :
    (RecordingInformation.set_ended total_frames width height elapsed).mean_fps =
      DoubleVal.val ((total_frames : ℚ) / (elapsed : ℚ)) := by
  have hne : (elapsed : ℚ) ≠ 0 := by
    exact_mod_cast h.ne'
  simp [RecordingInformation.set_ended, DoubleVal.ddiv, hne]

/-- Witness for C5: 10 frames in 2 seconds. -/
theorem mean_fps_eq_frames_div_elapsed_witness :
    0 < (2 : Int) ∧
    (RecordingInformation.set_ended 10 640 480 2).mean_fps =
      DoubleVal.val (((10 : Int) : ℚ) / ((2 : Int) : ℚ)) :=
  ⟨by decide, mean_fps_eq_frames_div_elapsed 10 640 480 2 (by decide)⟩

/-- Claim C6 (counterexample): finalizing a session of 5 frames with
elapsed = 0 whole seconds performs the unguarded IEEE division
5.0 / 0.0: the recorded mean-fps is +infinity — neither the value a
1-second-minimum fallback would give (5) nor NaN or any other
explicit undefined marker. -/
theorem mean_fps_div_zero_unguarded_cex :
    (RecordingInformation.set_ended 5 100 100 0).mean_fps = DoubleVal.posInf ∧
    (RecordingInformation.set_ended 5 100 100 0).mean_fps ≠ DoubleVal.val 5 ∧
    (RecordingInformation.set_ended 5 100 100 0).mean_fps ≠ DoubleVal.nan := by
  norm_num [RecordingInformation.set_ended, DoubleVal.ddiv]
  exact ⟨(fun h => nomatch h), (fun h => nomatch h)⟩

/-- Claim C6 (amended): the mean-fps computation divides by the
elapsed whole seconds unguarded; when elapsed = 0 the stored value is
the IEEE result of total_frames / 0 — +infinity for positive
total_frames, -infinity for negative, NaN for 0 — and no 1-second
minimum or explicit undefined marker is ever substituted. -/
theorem mean_fps_div_zero_unguarded (total_frames width height : Int) :
    (RecordingInformation.set_ended total_frames width height 0).mean_fps =
      (if 0 < total_frames then DoubleVal.posInf
       else if total_frames < 0 then DoubleVal.negInf
       else DoubleVal.nan) := by
  simp [RecordingInformation.set_ended, DoubleVal.ddiv, Int.cast_pos, Int.cast_lt_zero]

/-- Claim C7: calling startRecording with an empty (unconfigured)
writer destination leaves the controller state completely unchanged —
no worker created, no metadata object, the recording flag untouched,
no thread started, no connection added — and emits no event. -/
theorem start_recording_empty_savefile_noop (factories : String → Bool)
    (s : ControllerState) (h : s.configuration.savefile = "") :
    SaveImages.startRecording factories s = (s, []) := by
  simp [SaveImages.startRecording, SaveImages.writerFactory, h]

/-- Witness for C7: an idle controller with an empty destination. -/
theorem start_recording_empty_savefile_noop_witness :
    SaveImages.startRecording (fun _ => true)
      (ControllerState.init (Configuration.mk "" "SER" true 0 100)) =
    (ControllerState.init (Configuration.mk "" "SER" true 0 100), []) :=
  start_recording_empty_savefile_noop (fun _ => true)
    (ControllerState.init (Configuration.mk "" "SER" true 0 100)) rfl

/-- Claim C8: the metadata document is written at most once, at
end-of-life (the destructor is the only writing operation, modelled
as a single function of the final state); a RecordingInformation
whose filename was never set writes nothing; `set_base_filename`
makes the filename the base path plus ".txt"; the destructor writes
the serialized properties iff the filename is nonempty and the
destination opens; and an open failure is silently ignored — nothing
is written and nothing propagates (the result type has no error
alternative, mirroring the bare early `return`). -/
theorem metadata_written_iff_filename (info : RecordingInformation) (canOpen : Bool)
    (base : String) (props : List (String × String)) :
    ((RecordingInformation.destructor info canOpen).isSome = true ↔
      (info.filename ≠ "" ∧ canOpen = true)) ∧
    (RecordingInformation.destructor info false = none) ∧
    (RecordingInformation.destructor (RecordingInformation.create props) canOpen = none) ∧
    ((RecordingInformation.set_base_filename info base).filename = base ++ ".txt") ∧
    (canOpen = true → info.filename ≠ "" →
      RecordingInformation.destructor info canOpen = some info.properties) := by
  refine ⟨?_, ?_, ?_, rfl, ?_⟩
  · by_cases h1 : info.filename = "" <;> cases canOpen <;>
      simp [RecordingInformation.destructor, h1]
  · simp [RecordingInformation.destructor]
  · simp [RecordingInformation.create, RecordingInformation.destructor]
  · intro hc hf
    simp [RecordingInformation.destructor, hf, hc]

/-- Witness for C8: a set filename and an openable destination. -/
theorem metadata_written_iff_filename_witness :
    RecordingInformation.destructor
      { properties := [("camera", "test")], filename := "out.ser.txt" } true =
      some [("camera", "test")] :=
  (metadata_written_iff_filename
      { properties := [("camera", "test")], filename := "out.ser.txt" } true "video"
      [("observer", "me")]).2.2.2.2 rfl (by decide)

/-- Claim C9: a duration control — number-typed with the duration
flag — is snapshotted with its type recorded as "duration" and its
raw value re-expressed as value × unit_scale in seconds, value ×
unit_scale × 1000 in milliseconds and value × unit_scale × 1000000
in microseconds (lines 74-82). -/
theorem duration_control_units (c : Control) (ht : c.type = ControlType.number)
    (hd : c.is_duration = true) :
    (RecordingInformation.snapshotControl c).type = "duration" ∧
    (RecordingInformation.snapshotControl c).value_seconds =
      some (c.value * c.duration_unit) ∧
    (RecordingInformation.snapshotControl c).value_milliseconds =
      some (c.value * c.duration_unit * 1000) ∧
    (RecordingInformation.snapshotControl c).value_microseconds =
      some (c.value * c.duration_unit * 1000000) := by
  simp [RecordingInformation.snapshotControl, ht, hd]

/-- Witness for C9: an exposure control of 5 units at a millisecond
unit scale. -/
theorem duration_control_units_witness :
    (RecordingInformation.snapshotControl
        (Control.mk "exposure" 5 ControlType.number true (1 / 1000) [])).type = "duration" ∧
    (RecordingInformation.snapshotControl
        (Control.mk "exposure" 5 ControlType.number true (1 / 1000) [])).value_seconds =
      some ((5 : ℚ) * (1 / 1000)) ∧
    (RecordingInformation.snapshotControl
        (Control.mk "exposure" 5 ControlType.number true (1 / 1000) [])).value_milliseconds =
      some ((5 : ℚ) * (1 / 1000) * 1000) ∧
    (RecordingInformation.snapshotControl
        (Control.mk "exposure" 5 ControlType.number true (1 / 1000) [])).value_microseconds =
      some ((5 : ℚ) * (1 / 1000) * 1000000) :=
  duration_control_units
    (Control.mk "exposure" 5 ControlType.number true (1 / 1000) []) rfl rfl

theorem SaveImages.runActs_drain (m maxFrames : Nat) :
    ∀ (acts : List Act) (s : SessionState),
    s.is_recording = true →
    SaveImages.drainOk m maxFrames s acts = true →
    (∀ a ∈ acts, a ≠ Act.endRec) →
    ∃ w : List Frame,
      (SaveImages.runActs m maxFrames s acts).1.is_recording = true ∧
      (SaveImages.runActs m maxFrames s acts).1.worker.dropped_frames =
        s.worker.dropped_frames ∧
      Event.droppedCounts (SaveImages.runActs m maxFrames s acts).2 = [] ∧
      (SaveImages.runActs m maxFrames s acts).1.written = s.written ++ w ∧
      (SaveImages.runActs m maxFrames s acts).1.written ++
          (SaveImages.runActs m maxFrames s acts).1.worker.queueContents =
        s.written ++ s.worker.queueContents ++ Act.submitted acts ∧
      (SaveImages.runActs m maxFrames s acts).1.frames = s.frames + w.length ∧
      Event.savedCounts (SaveImages.runActs m maxFrames s acts).2 =
        List.range' (s.frames + 1) w.length := by
  intro acts
  induction acts with
  | nil =>
    intro s hrec _ _
    refine ⟨[], ?_, ?_, ?_, ?_, ?_, ?_, ?_⟩ <;>
      simp [SaveImages.runActs, hrec, Act.submitted, Event.droppedCounts,
        Event.savedCounts, List.range']
  | cons a rest ih =>
    intro s hrec hdr hne
    have hne_rest : ∀ x ∈ rest, x ≠ Act.endRec :=
      fun x hx => hne x (List.mem_cons_of_mem a hx)
    cases a with
    | endRec => exact absurd rfl (hne Act.endRec (List.mem_cons_self Act.endRec rest))
    | submit f =>
      simp only [SaveImages.drainOk, Bool.and_eq_true, hrec, Bool.not_true,
        Bool.false_or] at hdr
      obtain ⟨hroom, hdr2⟩ := hdr
      rcases hq : s.worker.framesQueue with _ | q
      · simp only [SaveImages.queueHasRoom, hq, decide_eq_true_eq] at hroom
        have hstep1 : (SaveImages.step m maxFrames s (Act.submit f)).1 =
            { s with worker := (WorkerState.mk
                (some (FrameQueue.mk (m / f.byteSize) [f])) s.worker.dropped_frames) } := by
          simp [SaveImages.step, hrec, WriterThreadWorker.handle, hq, FrameQueue.push, hroom]
        have hstep2 : (SaveImages.step m maxFrames s (Act.submit f)).2 = [] := by
          simp [SaveImages.step, hrec, WriterThreadWorker.handle, hq, FrameQueue.push, hroom]
        rw [hstep1] at hdr2
        simp only [SaveImages.runActs, hstep1, hstep2, List.nil_append]
        obtain ⟨w, ih1, ih2, ih3, ih4, ih5, ih6, ih7⟩ := ih _ (by simpa using hrec) hdr2 hne_rest
        refine ⟨w, ih1, ih2, ih3, ih4, ?_, ih6, ih7⟩
        rw [ih5]
        simp [WorkerState.queueContents, hq, Act.submitted]
      · simp only [SaveImages.queueHasRoom, hq, decide_eq_true_eq] at hroom
        have hstep1 : (SaveImages.step m maxFrames s (Act.submit f)).1 =
            { s with worker := (WorkerState.mk
                (some (FrameQueue.mk q.capacity (q.contents ++ [f])))
                s.worker.dropped_frames) } := by
          simp [SaveImages.step, hrec, WriterThreadWorker.handle, hq, FrameQueue.push, hroom]
        have hstep2 : (SaveImages.step m maxFrames s (Act.submit f)).2 = [] := by
          simp [SaveImages.step, hrec, WriterThreadWorker.handle, hq, FrameQueue.push, hroom]
        rw [hstep1] at hdr2
        simp only [SaveImages.runActs, hstep1, hstep2, List.nil_append]
        obtain ⟨w, ih1, ih2, ih3, ih4, ih5, ih6, ih7⟩ := ih _ (by simpa using hrec) hdr2 hne_rest
        refine ⟨w, ih1, ih2, ih3, ih4, ?_, ih6, ih7⟩
        rw [ih5]
        simp [WorkerState.queueContents, hq, Act.submitted]
    | consume =>
      simp only [SaveImages.drainOk, Bool.and_eq_true, Bool.true_and] at hdr
      by_cases hc : s.is_recording = true ∧ s.frames < maxFrames
      · rcases hq : s.worker.framesQueue with _ | q
        · have hstep1 : (SaveImages.step m maxFrames s Act.consume).1 = s := by
            simp [SaveImages.step, hc, hq]
          have hstep2 : (SaveImages.step m maxFrames s Act.consume).2 = [] := by
            simp [SaveImages.step, hc, hq]
          rw [hstep1] at hdr
          simp only [SaveImages.runActs, hstep1, hstep2, List.nil_append]
          obtain ⟨w, ih1, ih2, ih3, ih4, ih5, ih6, ih7⟩ := ih s hrec hdr hne_rest
          exact ⟨w, ih1, ih2, ih3, ih4, by simpa [Act.submitted] using ih5, ih6, ih7⟩
        · rcases hcc : q.contents with _ | ⟨f, tail⟩
          · have hstep1 : (SaveImages.step m maxFrames s Act.consume).1 = s := by
              simp [SaveImages.step, hc, hq, hcc]
            have hstep2 : (SaveImages.step m maxFrames s Act.consume).2 = [] := by
              simp [SaveImages.step, hc, hq, hcc]
            rw [hstep1] at hdr
            simp only [SaveImages.runActs, hstep1, hstep2, List.nil_append]
            obtain ⟨w, ih1, ih2, ih3, ih4, ih5, ih6, ih7⟩ := ih s hrec hdr hne_rest
            exact ⟨w, ih1, ih2, ih3, ih4, by simpa [Act.submitted] using ih5, ih6, ih7⟩
          · have hstep1 : (SaveImages.step m maxFrames s Act.consume).1 =
                SessionState.mk
                  (WorkerState.mk (some (FrameQueue.mk q.capacity tail))
                    s.worker.dropped_frames)
                  s.is_recording (s.frames + 1)
                  (if s.width = -1 ∨ s.height = -1 then (f.cols : Int) else s.width)
                  (if s.width = -1 ∨ s.height = -1 then (f.rows : Int) else s.height)
                  (s.written ++ [f]) := by
              simp [SaveImages.step, hc, hq, hcc]
            have hstep2 : (SaveImages.step m maxFrames s Act.consume).2 =
                [Event.savedFrames (s.frames + 1)] := by
              simp [SaveImages.step, hc, hq, hcc]
            rw [hstep1] at hdr
            simp only [SaveImages.runActs, hstep1, hstep2]
            obtain ⟨w, ih1, ih2, ih3, ih4, ih5, ih6, ih7⟩ :=
              ih _ (by simpa using hrec) hdr hne_rest
            refine ⟨f :: w, ih1, ih2, ?_, ?_, ?_, ?_, ?_⟩
            · simpa [Event.droppedCounts] using ih3
            · rw [ih4]
              simp
            · rw [ih5]
              simp [WorkerState.queueContents, hq, hcc, Act.submitted]
            · rw [ih6]
              simp only [List.length_cons]
              omega
            · rw [show (f :: w).length = w.length + 1 from rfl, List.range'_succ]
              simpa [Event.savedCounts] using ih7
      · have hstep1 : (SaveImages.step m maxFrames s Act.consume).1 = s := by
          simp [SaveImages.step, hc]
        have hstep2 : (SaveImages.step m maxFrames s Act.consume).2 = [] := by
          simp [SaveImages.step, hc]
        rw [hstep1] at hdr
        simp only [SaveImages.runActs, hstep1, hstep2, List.nil_append]
        obtain ⟨w, ih1, ih2, ih3, ih4, ih5, ih6, ih7⟩ := ih s hrec hdr hne_rest
        exact ⟨w, ih1, ih2, ih3, ih4, by simpa [Act.submitted] using ih5, ih6, ih7⟩

/-- Claim C3: along a session trace in which the consumer drains at
least as fast as frames arrive (every push finds room in the queue),
the session is not stopped, and the queue is fully drained by the
end: no frame is dropped (the dropped counter stays 0 and no
droppedFrames event is emitted), the frames handed to the file writer
are exactly the submitted frames in submission order, and the
savedFrames events number exactly the submitted frames, carrying the
counts 1, 2, ..., N.  The model's serialized action trace is
precisely the single-producer / single-consumer mutual-exclusion
discipline the lock-free queue requires: although `SaveImages::handle`
dispatches each arriving frame as an independent QtConcurrent task,
this theorem holds only of executions in which those `handle` calls
do not overlap, which is the correctness precondition the claim
states. -/
theorem drain_no_drops_in_order (m maxFrames : Nat) (acts : List Act)
    (hdr : SaveImages.drainOk m maxFrames SessionState.start acts = true)
    (hne : ∀ a ∈ acts, a ≠ Act.endRec)
    (hdrained :
      (SaveImages.runActs m maxFrames SessionState.start acts).1.worker.queueContents = []) :
    (SaveImages.runActs m maxFrames SessionState.start acts).1.worker.dropped_frames = 0 ∧
    Event.droppedCounts (SaveImages.runActs m maxFrames SessionState.start acts).2 = [] ∧
    (SaveImages.runActs m maxFrames SessionState.start acts).1.written = Act.submitted acts ∧
    Event.savedCounts (SaveImages.runActs m maxFrames SessionState.start acts).2 =
      List.range' 1 (Act.submitted acts).length := by
  obtain ⟨w, h1, h2, h3, h4, h5, h6, h7⟩ :=
    SaveImages.runActs_drain m maxFrames acts SessionState.start rfl hdr hne
  have h4' : (SaveImages.runActs m maxFrames SessionState.start acts).1.written = w := by
    simpa [SessionState.start] using h4
  have h5' : (SaveImages.runActs m maxFrames SessionState.start acts).1.written =
      Act.submitted acts := by
    have h := h5
    rw [hdrained, List.append_nil] at h
    simpa [SessionState.start, WorkerState.init, WorkerState.queueContents] using h
  have hlen : w.length = (Act.submitted acts).length := by
    rw [← h4', h5']
  refine ⟨?_, h3, h5', ?_⟩
  · simpa [SessionState.start, WorkerState.init] using h2
  · simpa [SessionState.start, hlen] using h7

/-- Witness for C3: budget 4, two 1-byte frames, each consumed right
after it is submitted. -/
theorem drain_no_drops_in_order_witness :
    (SaveImages.runActs 4 10 SessionState.start
        [Act.submit (Frame.mk 1 1 1), Act.consume, Act.submit (Frame.mk 1 1 1),
         Act.consume]).1.worker.dropped_frames = 0 ∧
    Event.droppedCounts (SaveImages.runActs 4 10 SessionState.start
        [Act.submit (Frame.mk 1 1 1), Act.consume, Act.submit (Frame.mk 1 1 1),
         Act.consume]).2 = [] ∧
    (SaveImages.runActs 4 10 SessionState.start
        [Act.submit (Frame.mk 1 1 1), Act.consume, Act.submit (Frame.mk 1 1 1),
         Act.consume]).1.written =
      Act.submitted [Act.submit (Frame.mk 1 1 1), Act.consume,
        Act.submit (Frame.mk 1 1 1), Act.consume] ∧
    Event.savedCounts (SaveImages.runActs 4 10 SessionState.start
        [Act.submit (Frame.mk 1 1 1), Act.consume, Act.submit (Frame.mk 1 1 1),
         Act.consume]).2 =
      List.range' 1 (Act.submitted [Act.submit (Frame.mk 1 1 1), Act.consume,
        Act.submit (Frame.mk 1 1 1), Act.consume]).length :=
  drain_no_drops_in_order 4 10
    [Act.submit (Frame.mk 1 1 1), Act.consume, Act.submit (Frame.mk 1 1 1), Act.consume]
    (by decide) (by decide) (by decide)
